import Mathlib

/-
Verification of the logistics_operations_Queue repository.

The repository has two Python source files:
  * src/custom_queue.py      — a lock-guarded FIFO queue over a Python list
  * src/logistics_tracker.py — a linear status state machine and a
    producer/consumer pipeline built on the queue.

The queue keeps its newest element at index 0 (`enqueue` does
`self._buffer.insert(0, value)`) and removes the oldest element from the end
(`dequeue` does `self._buffer.pop()`).  We model the buffer as a Lean list
with the same orientation: the head of the list is the newest element and the
last element is the oldest.  The threading lock only serialises the operations;
each operation's effect on the buffer is the pure function modelled here, so a
sequential run of operations is modelled by composing these functions.
-/

namespace LogisticsOps

/-- Model of `Queue.enqueue` (src/custom_queue.py lines 15-18):
`self._buffer.insert(0, value)` puts `value` at index 0 of the buffer. -/
def enqueue {α : Type} (buffer : List α) (value : α) : List α :=
  value :: buffer

/-- Model of the internal emptiness helper of `Queue` (src/custom_queue.py
lines 38-39): `len(self._buffer) == 0`. -/
def is_empty_internal {α : Type} (buffer : List α) : Bool :=
  buffer.length == 0

/-- Model of `Queue.dequeue` (src/custom_queue.py lines 20-25): if the buffer
is non-empty, `self._buffer.pop()` removes and returns the last element of the
list (the oldest item); otherwise the method returns `None`, modelled by the
`Option.none` of the first component.  The second component is the buffer
after the call. -/
def dequeue {α : Type} (buffer : List α) : Option α × List α :=
  if is_empty_internal buffer then (Option.none, buffer)
  else (buffer.getLast?, buffer.dropLast)

/-- Model of `Queue.is_empty` (src/custom_queue.py lines 27-30): takes the
lock and delegates to the internal emptiness helper. -/
def is_empty {α : Type} (buffer : List α) : Bool :=
  is_empty_internal buffer

/-- Model of `Queue.size` (src/custom_queue.py lines 32-35):
`len(self._buffer)`. -/
def size {α : Type} (buffer : List α) : Nat :=
  buffer.length

/-- N consecutive `enqueue` calls, one per element of `xs`, in order. -/
def enqueueAll {α : Type} (buffer : List α) (xs : List α) : List α :=
  xs.foldl enqueue buffer

/-- N consecutive `dequeue` calls; returns the list of returned values (in
call order) and the final buffer. -/
def dequeueN {α : Type} : Nat → List α → List (Option α) × List α
  | 0, q => ([], q)
  | n + 1, q =>
    let r := dequeue q
    let rest := dequeueN n r.2
    (r.1 :: rest.1, rest.2)

/-- An order record of the `ORDERS` table in src/logistics_tracker.py,
with the mutable `status` field the generator attaches. -/
structure Order where
  order_id : String
  destination : String
  status : String
deriving DecidableEq, Repr

/-- A Python value that can sit in the buffer or be returned by
`Queue.dequeue`: Python's `None`, or an order dict.  Needed to state what the
Python `dequeue` call itself returns, since Python uses `None` both as the
empty sentinel and as an ordinary storable value. -/
inductive PyVal where
  | none
  | order (o : Order)
deriving DecidableEq, Repr

/-- The value the Python call `q.dequeue()` evaluates to: the popped item if
the buffer was non-empty, and the literal `None` otherwise.  Python does not
wrap the result, so a stored `None` and the empty sentinel collapse to the
same value. -/
def dequeue_ret (buffer : List PyVal) : PyVal :=
  match dequeue buffer with
  | (Option.some v, _) => v
  | (Option.none, _) => PyVal.none

/-- A queue operation: an `enqueue` of a given value, or a `dequeue`. -/
inductive QOp (α : Type) where
  | enq (value : α)
  | deq
deriving DecidableEq, Repr

/-- Run a sequence of queue operations on a buffer, sequentially.  Returns
the final buffer, the number of completed enqueues, and the number of
dequeues that removed and returned an item (a dequeue on an empty buffer
returns the sentinel and removes nothing). -/
def runOps {α : Type} : List (QOp α) → List α → List α × Nat × Nat
  | [], q => (q, 0, 0)
  | QOp.enq v :: ops, q =>
    let r := runOps ops (enqueue q v)
    (r.1, r.2.1 + 1, r.2.2)
  | QOp.deq :: ops, q =>
    let hit := !is_empty_internal q
    let r := runOps ops (dequeue q).2
    (r.1, r.2.1, if hit then r.2.2 + 1 else r.2.2)

/-- Modelled from the spec: the buffer contents the spec demands after a
sequence of operations — "the sequence reflects exactly the multiset of
orders enqueued minus those already dequeued, in FIFO order".  The pending
list is kept oldest-first: an enqueue appends at the tail, a dequeue removes
the head (if any). -/
def pendingAfter {α : Type} : List (QOp α) → List α → List α
  | [], p => p
  | QOp.enq v :: ops, p => pendingAfter ops (p ++ [v])
  | QOp.deq :: ops, p => pendingAfter ops p.tail

/-
Model of src/logistics_tracker.py.
-/

/-- The ASCII apostrophe character used in the error message of
`next_status` (`f"Unknown status: '{current}'"`). -/
def squote : String :=
  String.singleton (Char.ofNat 39)

/-- Model of `STATUS_TRANSITIONS` (src/logistics_tracker.py lines 11-16):
a Python dict from each valid status to its allowed next transition, with
`None` marking the terminal state.  Python dicts preserve insertion order, so
an association list is a faithful model. -/
def STATUS_TRANSITIONS : List (String × Option String) :=
  [("Not Shipped", some "In-Transit"),
   ("In-Transit", some "Waiting to Offload"),
   ("Waiting to Offload", some "Offloaded"),
   ("Offloaded", Option.none)]

/-- Model of `STATUS_ORDER` (src/logistics_tracker.py line 19):
`list(STATUS_TRANSITIONS.keys())`. -/
def STATUS_ORDER : List String :=
  STATUS_TRANSITIONS.map Prod.fst

/-- Model of `next_status` (src/logistics_tracker.py lines 22-30).
If `current` is not a key of `STATUS_TRANSITIONS` the Python function raises
`ValueError(f"Unknown status: '{current}'")`, modelled as `Except.error`
carrying that message; otherwise it returns `STATUS_TRANSITIONS[current]`. -/
def next_status (current : String) : Except String (Option String) :=
  match STATUS_TRANSITIONS.lookup current with
  | Option.none => Except.error ("Unknown status: " ++ squote ++ current ++ squote)
  | Option.some nxt => Except.ok nxt

/-- Model of the processor's advance loop (src/logistics_tracker.py lines
107-111): `while order["status"] != "Offloaded": order["status"] =
next_status(order["status"])`.  Returns the list of statuses assigned by the
loop, in order; `Option.none` models a raised exception or failure to reach
"Offloaded" within `fuel` iterations.  (The `Except.ok Option.none` branch is
unreachable from the loop guard, since only "Offloaded" maps to `None`; there
the Python code would assign `None` and raise on the next call, so the model
also returns `Option.none`.) -/
def advanceLoop : Nat → String → Option (List String)
  | 0, s => if s = "Offloaded" then some [] else Option.none
  | fuel + 1, s =>
    if s = "Offloaded" then some []
    else
      match next_status s with
      | Except.error _ => Option.none
      | Except.ok Option.none => Option.none
      | Except.ok (Option.some t) => (advanceLoop fuel t).map (fun rest => t :: rest)

/-- The full sequence of statuses an order with initial status `s` visits
under the advance loop: the initial status followed by every status assigned
by the loop. -/
def visitedStatuses (fuel : Nat) (s : String) : Option (List String) :=
  (advanceLoop fuel s).map (fun rest => s :: rest)

/-- An input record of the `ORDERS` table (src/logistics_tracker.py lines
37-43), before the generator attaches a status. -/
structure OrderData where
  order_id : String
  destination : String
deriving DecidableEq, Repr

/-- Model of the `ORDERS` table (src/logistics_tracker.py lines 37-43). -/
def ORDERS : List OrderData :=
  [⟨"68862131", "Cairo"⟩, ⟨"68862132", "Dubai"⟩, ⟨"68862133", "Jeddah"⟩,
   ⟨"68862134", "Ryadh"⟩, ⟨"68862135", "Luxor"⟩]

/-- Model of `generate_orders` (src/logistics_tracker.py lines 60-77),
parameterised by the order source it iterates: for each record, attach the
initial status "Not Shipped" and enqueue the order.  Printing and sleeping
have no effect on the queue.  Returns the final buffer. -/
def generate_orders (q : List Order) (orders : List OrderData) : List Order :=
  orders.foldl (fun buf od => enqueue buf ⟨od.order_id, od.destination, "Not Shipped"⟩) q

/-- Model of the `process_orders` consumer loop (src/logistics_tracker.py
lines 98-120) run sequentially: while `processed < total`, if the queue is
non-empty dequeue an order and drive it through the advance loop, then count
it; otherwise sleep and retry.  `fuel` bounds the number of loop iterations
(the Python loop is unbounded); `Option.none` models not finishing within
`fuel` steps or a raised exception.  Returns the final `processed` count and
buffer. -/
def process_orders_loop : Nat → List Order → Nat → Nat → Option (Nat × List Order)
  | 0, q, processed, total =>
    if processed < total then Option.none else some (processed, q)
  | fuel + 1, q, processed, total =>
    if processed < total then
      if is_empty q = false then
        match dequeue q with
        | (Option.some o, q2) =>
          match advanceLoop (fuel + 1) o.status with
          | Option.some _ => process_orders_loop fuel q2 (processed + 1) total
          | Option.none => Option.none
        | (Option.none, q2) => process_orders_loop fuel q2 processed total
      else
        process_orders_loop fuel q processed total
    else some (processed, q)

/-
Helper lemmas about the queue model.
-/

/-- Folding `enqueue` over `xs` piles the items newest-first on top of the
original buffer. -/
theorem enqueueAll_eq_reverse_append {α : Type} (xs : List α) (buffer : List α) :
    enqueueAll buffer xs = xs.reverse ++ buffer := by
  induction xs generalizing buffer with
  | nil => simp [enqueueAll]
  | cons x xs ih =>
    simp only [enqueueAll, List.foldl_cons] at *
    rw [ih (enqueue buffer x)]
    simp [enqueue]

/-- Dequeuing a non-empty buffer removes and returns its last element. -/
theorem dequeue_concat {α : Type} (l : List α) (x : α) :
    dequeue (l ++ [x]) = (some x, l) := by
  simp [dequeue, is_empty_internal, List.getLast?_concat, List.dropLast_concat]

/-- Dequeuing `xs.length` times from the buffer `xs.reverse` returns the
elements of `xs` in order and empties the buffer. -/
theorem dequeueN_reverse {α : Type} (xs : List α) :
    dequeueN xs.length xs.reverse = (xs.map some, []) := by
  induction xs with
  | nil => rfl
  | cons x xs ih =>
    simp only [List.length_cons, List.reverse_cons, dequeueN, dequeue_concat, ih]
    rfl

/-- Running any operation sequence from any buffer: the buffer read
oldest-first always equals the spec-level pending list, and the item count
plus successful dequeues equals the initial count plus enqueues. -/
theorem runOps_invariant {α : Type} (ops : List (QOp α)) : ∀ q : List α,
    (runOps ops q).1.reverse = pendingAfter ops q.reverse ∧
    (runOps ops q).1.length + (runOps ops q).2.2 = q.length + (runOps ops q).2.1 := by
  induction ops with
  | nil => intro q; simp [runOps, pendingAfter]
  | cons op ops ih =>
    intro q
    cases op with
    | enq v =>
      have h := ih (enqueue q v)
      simp only [runOps, pendingAfter]
      constructor
      · rw [h.1]
        simp [enqueue]
      · have := h.2
        simp [enqueue] at this ⊢
        omega
    | deq =>
      cases q with
      | nil =>
        have h := ih (dequeue ([] : List α)).2
        simp only [runOps, pendingAfter, dequeue, is_empty_internal] at h ⊢
        simpa using h
      | cons a as =>
        have h := ih (dequeue (a :: as)).2
        have hne : is_empty_internal (a :: as) = false := by
          simp [is_empty_internal]
        have hdq : (dequeue (a :: as)).2 = (a :: as).dropLast := by
          simp [dequeue, hne]
        rw [hdq] at h
        simp only [runOps, pendingAfter, hne, Bool.not_false, if_pos, hdq]
        constructor
        · rw [h.1, ← List.tail_reverse]
        · have h2 := h.2
          have hlen : (a :: as).dropLast.length = as.length := by
            simp [List.length_dropLast]
          rw [hlen] at h2
          simp only [List.length_cons]
          omega

/-
Claim theorems.
-/

/-- Claim C1: for every sequence of N enqueue calls followed by N dequeue
calls on an initially empty Queue, with no interleaving, the sequence of
items returned by the dequeues equals the sequence of items passed to the
enqueues, in the same order (each return wrapped in `some`, since every
dequeue finds the buffer non-empty). -/
theorem fifo_round_trip {α : Type} (xs : List α) :
    (dequeueN xs.length (enqueueAll [] xs)).1 = xs.map some := by
  rw [enqueueAll_eq_reverse_append, List.append_nil, dequeueN_reverse]

/-- Claim C2: for every string outside the four recognized status values,
`next_status` raises the unknown-status error, whose message names the
offending status value (the Python code raises
`ValueError(f"Unknown status: '\x7bcurrent\x7d'")`). -/
theorem unknown_status_raises (s : String) (h : s ∉ STATUS_ORDER) :
    next_status s = Except.error ("Unknown status: " ++ squote ++ s ++ squote) := by
  simp only [STATUS_ORDER, STATUS_TRANSITIONS, List.map, List.mem_cons, List.not_mem_nil,
    or_false, not_or] at h
  obtain ⟨h1, h2, h3, h4⟩ := h
  have e1 : (s == "Not Shipped") = false := by simp [h1]
  have e2 : (s == "In-Transit") = false := by simp [h2]
  have e3 : (s == "Waiting to Offload") = false := by simp [h3]
  have e4 : (s == "Offloaded") = false := by simp [h4]
  simp [next_status, STATUS_TRANSITIONS, List.lookup, e1, e2, e3, e4]

/-- Witness for claim C2 at the concrete unknown status "Shipped". -/
theorem unknown_status_raises_witness :
    "Shipped" ∉ STATUS_ORDER ∧
    next_status "Shipped" =
      Except.error ("Unknown status: " ++ squote ++ "Shipped" ++ squote) :=
  ⟨by decide, unknown_status_raises "Shipped" (by decide)⟩

/-- Claim C3: an order dequeued with initial status "Not Shipped" visits,
under the processor's advance loop, exactly the statuses of the fixed total
order from initial to terminal, each exactly once, in increasing order,
ending at "Offloaded". -/
theorem process_visits_exact_status_order :
    visitedStatuses 3 "Not Shipped" = some STATUS_ORDER ∧
    STATUS_ORDER = ["Not Shipped", "In-Transit", "Waiting to Offload", "Offloaded"] ∧
    STATUS_ORDER.Nodup :=
  ⟨rfl, rfl, by decide⟩

/-- Claim C4: `next_status` on the terminal status "Offloaded" returns the
no-successor sentinel `None` and does not raise. -/
theorem offloaded_terminal :
    next_status "Offloaded" = Except.ok Option.none :=
  rfl

/-- Claim C5: for every non-terminal recognized status (the first three
entries of `STATUS_ORDER`), `next_status` returns exactly the immediate
successor in the enumeration, and any status it returns is itself a member
of the enumeration. -/
theorem next_status_one_step :
    (∀ i : Fin 3, next_status (STATUS_ORDER.getD i.val "") =
        Except.ok (some (STATUS_ORDER.getD (i.val + 1) ""))) ∧
    (∀ s t : String, next_status s = Except.ok (some t) → t ∈ STATUS_ORDER) := by
  constructor
  · intro i
    fin_cases i <;> rfl
  · intro s t h
    by_cases h1 : s = "Not Shipped"
    · subst h1
      simp only [next_status, STATUS_TRANSITIONS, List.lookup] at h
      simp at h
      subst h
      decide
    · by_cases h2 : s = "In-Transit"
      · subst h2
        simp only [next_status, STATUS_TRANSITIONS, List.lookup] at h
        simp at h
        subst h
        decide
      · by_cases h3 : s = "Waiting to Offload"
        · subst h3
          simp only [next_status, STATUS_TRANSITIONS, List.lookup] at h
          simp at h
          subst h
          decide
        · by_cases h4 : s = "Offloaded"
          · subst h4
            simp only [next_status, STATUS_TRANSITIONS, List.lookup] at h
            simp at h
          · have e1 : (s == "Not Shipped") = false := by simp [h1]
            have e2 : (s == "In-Transit") = false := by simp [h2]
            have e3 : (s == "Waiting to Offload") = false := by simp [h3]
            have e4 : (s == "Offloaded") = false := by simp [h4]
            simp [next_status, STATUS_TRANSITIONS, List.lookup, e1, e2, e3, e4] at h

/-- Witness for claim C5 at the first transition. -/
theorem next_status_one_step_witness :
    next_status (STATUS_ORDER.getD 0 "") = Except.ok (some (STATUS_ORDER.getD 1 "")) ∧
    "In-Transit" ∈ STATUS_ORDER :=
  ⟨next_status_one_step.1 ⟨0, Nat.zero_lt_succ 2⟩,
   next_status_one_step.2 "Not Shipped" "In-Transit" rfl⟩

/-- Claim C6: from every recognized status, iterating `next_status` reaches
the terminal status within three steps, so the per-order advance loop
terminates. -/
theorem statuses_reach_terminal : ∀ s ∈ STATUS_ORDER, (advanceLoop 3 s).isSome = true := by
  decide

/-- Witness for claim C6 at the initial status. -/
theorem statuses_reach_terminal_witness :
    "Not Shipped" ∈ STATUS_ORDER ∧ (advanceLoop 3 "Not Shipped").isSome = true :=
  ⟨by decide, statuses_reach_terminal "Not Shipped" (by decide)⟩

/-- Claim C7: after any sequence of enqueue and dequeue operations on an
initially empty Queue, `size` equals the number of completed enqueues minus
the number of dequeues that returned an item (stated without truncation:
size plus successful dequeues equals enqueues, so the difference is never
negative), the buffer read oldest-first is exactly the spec-level FIFO
pending list, and `is_empty` returns true exactly when that count is zero. -/
theorem queue_run_invariant {α : Type} (ops : List (QOp α)) :
    size (runOps ops ([] : List α)).1 + (runOps ops ([] : List α)).2.2
        = (runOps ops ([] : List α)).2.1 ∧
    (runOps ops ([] : List α)).1.reverse = pendingAfter ops [] ∧
    (is_empty (runOps ops ([] : List α)).1 = true ↔
      (runOps ops ([] : List α)).2.1 - (runOps ops ([] : List α)).2.2 = 0) := by
  have h := runOps_invariant ops ([] : List α)
  simp only [List.reverse_nil, List.length_nil, Nat.zero_add] at h
  refine ⟨by simpa [size] using h.2, h.1, ?_⟩
  simp only [is_empty, is_empty_internal, beq_iff_eq]
  omega

/-- Claim C8: `dequeue` on an empty Queue returns the empty sentinel `None`
without raising, and leaves the queue unchanged: `size` is still 0 and
`is_empty` still true afterwards. -/
theorem dequeue_empty_sentinel {α : Type} :
    dequeue ([] : List α) = (Option.none, []) ∧
    size (dequeue ([] : List α)).2 = 0 ∧
    is_empty (dequeue ([] : List α)).2 = true :=
  ⟨rfl, rfl, rfl⟩

/-- Claim C9: with an empty order source and `total_orders = 0`, the
generator enqueues nothing and the processor loop returns immediately,
dequeuing nothing, with its processed count equal to 0 = total_orders, for
any fuel bound and any starting buffer. -/
theorem empty_source_immediate_termination : ∀ (fuel : Nat) (q : List Order),
    generate_orders q [] = q ∧ process_orders_loop fuel q 0 0 = some (0, q) := by
  intro fuel q
  refine ⟨rfl, ?_⟩
  cases fuel <;> simp [process_orders_loop]

/-- Claim C10: the Queue's empty sentinel is `None` itself and `None` is
storable, so the sentinel is ambiguous: the queue obtained by
`enqueue(None)` is non-empty, yet the Python return value of `dequeue` on it
is `None`, identical to the return value of `dequeue` on the empty queue. -/
theorem none_sentinel_ambiguous :
    is_empty (enqueue ([] : List PyVal) PyVal.none) = false ∧
    dequeue_ret (enqueue ([] : List PyVal) PyVal.none) = PyVal.none ∧
    dequeue_ret ([] : List PyVal) = PyVal.none :=
  ⟨rfl, rfl, rfl⟩

end LogisticsOps
